import Mathlib

/-!
Verification of the daily-finance chat bot (src/main.py).

The Python module keeps all per-user state in a single mutable dict
(`context.user_data`); we embed that dict as the structure `UserData`
whose fields are `Option`-valued, one per dict key, so that a missing
key is `none` and `dict.get(k, default)` is `Option.getD`.  Handlers
that can raise (`KeyError` from a missing key, `AttributeError` from
`update.message` being `None`) return `Except Err`.  Telegram I/O calls
(send / edit / delete / answer) are recorded as a list of `Effect`s.
Python `float` amounts are embedded as ℚ; exact IEEE-754 rounding is
outside the model, which is faithful for the decimal literals the bot
manipulates.  `datetime.now(TZ)` is embedded as a `Now` record carrying
the three formatted projections the source takes of it.
-/

/-- The two transaction kinds, from the `'income'` / `'expense'` strings
stored under the `'type'` key in src/main.py. -/
inductive TxType where
  | income
  | expense
deriving DecidableEq, Repr

/-- A committed transaction dict, as appended by `save_transaction`
(src/main.py:149-159): keys `type`, `amount`, `description`, `date`.
`description` and `date` stay optional because the renderer reads
`t.get('description', ...)` defensively (src/main.py:82). -/
structure Tx where
  type : TxType
  amount : ℚ
  description : Option String
  date : Option String
deriving DecidableEq, Repr

/-- The partially built dict stored under `'current_transaction'`:
`ask_for_amount` creates it as `{'type': ...}` (src/main.py:130) and
`ask_for_description` adds the `'amount'` key (src/main.py:141). -/
structure PendingTx where
  type : TxType
  amount : Option ℚ
deriving DecidableEq, Repr

/-- The per-user dict `context.user_data`; each field models one key,
`none` meaning the key is absent. -/
structure UserData where
  last_update : Option String
  balance_start_day : Option ℚ
  balance_end_day : Option ℚ
  transactions_today : Option (List Tx)
  message_id : Option Nat
  current_transaction : Option PendingTx
deriving DecidableEq, Repr

/-- The projections of `datetime.now(TZ)` that the source uses:
`strftime("%Y-%m-%d")` (the rollover key), `strftime("%d %B %Y")`
(the displayed date) and `isoformat()` (the commit timestamp). -/
structure Now where
  dateKey : String
  dateDisplay : String
  iso : String
deriving DecidableEq, Repr

/-- The stats snapshot dict returned by `get_user_stats`
(src/main.py:53-60). -/
structure Stats where
  date : String
  balance_start : ℚ
  total_income : ℚ
  total_expense : ℚ
  balance_end : ℚ
  transactions : List Tx
deriving DecidableEq, Repr

/-- `sum(t['amount'] for t in transactions if t['type'] == 'income')`
(src/main.py:46). -/
def total_income (ts : List Tx) : ℚ :=
  ((ts.filter (fun t => t.type == TxType.income)).map Tx.amount).sum

/-- `sum(t['amount'] for t in transactions if t['type'] == 'expense')`
(src/main.py:47). -/
def total_expense (ts : List Tx) : ℚ :=
  ((ts.filter (fun t => t.type == TxType.expense)).map Tx.amount).sum

/-- The new-user / new-day branch of `get_user_stats`
(src/main.py:37-42): seed `balance_start_day` from the persisted
`balance_end_day` (0.0 when absent), clear `transactions_today`, stamp
`last_update` with today's key. -/
def rollover (todayKey : String) (d : UserData) : UserData :=
  { d with
    balance_start_day := some (d.balance_end_day.getD 0)
    transactions_today := some []
    last_update := some todayKey }

/-- `get_user_stats(user_data)` (src/main.py:32-60).  Rolls over when
`'last_update' not in user_data or user_data.get('last_update') !=
today_str` (equivalently: `last_update ≠ some todayKey`), then always
recomputes the totals and the closing balance, persists
`balance_end_day`, and returns the snapshot.  Returns the updated dict
together with the snapshot. -/
def get_user_stats (now : Now) (d : UserData) : UserData × Stats :=
  let d1 := if d.last_update = some now.dateKey then d else rollover now.dateKey d
  let ts := d1.transactions_today.getD []
  let ti := total_income ts
  let te := total_expense ts
  let bs := d1.balance_start_day.getD 0
  let be := bs + ti - te
  ({ d1 with balance_end_day := some be },
   { date := now.dateDisplay
     balance_start := bs
     total_income := ti
     total_expense := te
     balance_end := be
     transactions := ts })

/-- Numeric value of a digit run, most significant first. -/
def digitsToNat (ds : List Char) : Nat :=
  ds.foldl (fun a c => a * 10 + (c.toNat - 48)) 0

/-- Unsigned decimal part of a Python float literal: `digits`,
`digits.digits*` or `.digits`.  Returns the value and the unconsumed
characters. -/
def parseUnsigned (cs : List Char) : Option (ℚ × List Char) :=
  let ip := cs.takeWhile Char.isDigit
  let r1 := cs.dropWhile Char.isDigit
  match r1 with
  | '.' :: r2 =>
      let fp := r2.takeWhile Char.isDigit
      let r3 := r2.dropWhile Char.isDigit
      if ip.isEmpty && fp.isEmpty then none
      else some ((digitsToNat ip : ℚ) + (digitsToNat fp : ℚ) / (10 : ℚ) ^ fp.length, r3)
  | _ => if ip.isEmpty then none else some ((digitsToNat ip : ℚ), r1)

/-- Optional exponent suffix `(e|E)[sign]digits` of a float literal. -/
def parseExponent (cs : List Char) : Option (Int × List Char) :=
  match cs with
  | 'e' :: r | 'E' :: r =>
      let (sgn, r1) : Int × List Char :=
        match r with
        | '-' :: r2 => (-1, r2)
        | '+' :: r2 => (1, r2)
        | _ => (1, r)
      let ds := r1.takeWhile Char.isDigit
      let r2 := r1.dropWhile Char.isDigit
      if ds.isEmpty then none else some (sgn * (digitsToNat ds : Int), r2)
  | _ => none

/-- Model of Python `float(text)` as used in `ask_for_description`
(src/main.py:140): an optional sign followed by a finite decimal
literal with optional exponent, the whole string consumed; any other
string raises `ValueError`, modelled as `none`.  The `inf` / `nan`
words, embedded underscores and surrounding whitespace that CPython
also accepts are outside this model (they never denote a finite
decimal amount or are cosmetic). -/
def parseFloat (s : String) : Option ℚ :=
  let cs := s.toList
  let (neg, cs1) : Bool × List Char :=
    match cs with
    | '-' :: r => (true, r)
    | '+' :: r => (false, r)
    | _ => (false, cs)
  match parseUnsigned cs1 with
  | none => none
  | some (v, rest) =>
      let signed := if neg then -v else v
      match rest with
      | [] => some signed
      | c :: r =>
          match parseExponent (c :: r) with
          | some (e, []) => some (signed * (10 : ℚ) ^ e)
          | _ => none

/-- The dialogue stages `START_ROUTES, GET_AMOUNT, GET_DESCRIPTION =
range(3)` of the `ConversationHandler` (src/main.py:28). -/
inductive ConvState where
  | START_ROUTES
  | GET_AMOUNT
  | GET_DESCRIPTION
deriving DecidableEq, Repr

/-- The text prompts the handlers emit besides the main menu. -/
inductive Prompt where
  | enterAmount (k : TxType)
  | notANumber
  | enterDescription
deriving DecidableEq, Repr

/-- One Telegram API call made by a handler.  `sendMenu` carries the
id the transport assigns to the new message; `editMenu` edits the
given existing message.  The menu payload is the stats snapshot the
text is rendered from. -/
inductive Effect where
  | answerCb
  | sendMenu (stats : Stats) (msgId : Nat)
  | editMenu (msgId : Nat) (stats : Stats)
  | editPrompt (p : Prompt)
  | reply (p : Prompt)
  | deleteMsg (msgId : Nat)
deriving DecidableEq, Repr

/-- Python exceptions that can escape a handler. -/
inductive Err where
  | keyError (k : String)
  | attributeError
deriving DecidableEq, Repr

/-- The shape of the inbound `update` as far as `start` inspects it:
`update.callback_query` (with its message id) and whether
`update.message` is present.  `save_transaction` synthesizes a
`MockUpdate` with both absent (src/main.py:179-186). -/
structure Upd where
  callback : Option Nat
  hasMessage : Bool
deriving DecidableEq, Repr

/-- Per-event environment: the current wall clock, the message id the
transport would assign to a newly sent message, and whether the
`edit_message_text` / `delete_message` calls succeed (their failures
are the `except` branches in src/main.py:117 and 167). -/
structure Env where
  now : Now
  freshId : Nat
  editOk : Bool
  deleteOk : Bool
deriving DecidableEq, Repr

/-- `start(update, context)` (src/main.py:62-121): compute stats (which
performs the daily rollover), then either answer-and-edit the callback
message, send a brand-new menu message and record its id, or edit the
existing live message in place -- falling back to a fresh send (again
recording the id) when the edit fails.  The fallback reads
`update.message`, so with no message present a failed edit raises
`AttributeError`. -/
def start (env : Env) (u : Upd) (d : UserData) :
    Except Err (UserData × List Effect × ConvState) :=
  let (d1, stats) := get_user_stats env.now d
  match u.callback with
  | some cb =>
      .ok (d1, [.answerCb, .editMenu cb stats], .START_ROUTES)
  | none =>
      match d1.message_id with
      | none =>
          .ok ({ d1 with message_id := some env.freshId },
               [.sendMenu stats env.freshId], .START_ROUTES)
      | some mid =>
          if env.editOk then
            .ok (d1, [.editMenu mid stats], .START_ROUTES)
          else if u.hasMessage then
            .ok ({ d1 with message_id := some env.freshId },
                 [.sendMenu stats env.freshId], .START_ROUTES)
          else
            .error .attributeError

/-- `ask_for_amount(update, context)` (src/main.py:124-135): answer the
callback, store `{'type': kind}` as the pending transaction, edit the
live message into the amount prompt, move to `GET_AMOUNT`. -/
def ask_for_amount (k : TxType) (d : UserData) :
    UserData × List Effect × ConvState :=
  ({ d with current_transaction := some { type := k, amount := none } },
   [.answerCb, .editPrompt (.enterAmount k)], .GET_AMOUNT)

/-- `ask_for_description(update, context)` (src/main.py:137-147):
`float(text)` failing (`ValueError`) is caught and re-prompts in
`GET_AMOUNT` with the dict untouched; on success the `'amount'` key is
written into `current_transaction` -- a `KeyError` (not caught by the
`except (ValueError, TypeError)` clause) when that key is absent --
and the dialogue moves to `GET_DESCRIPTION`. -/
def ask_for_description (text : String) (d : UserData) :
    Except Err (UserData × List Effect × ConvState) :=
  match parseFloat text with
  | none => .ok (d, [.reply .notANumber], .GET_AMOUNT)
  | some a =>
      match d.current_transaction with
      | none => .error (.keyError "current_transaction")
      | some p =>
          .ok ({ d with current_transaction := some { p with amount := some a } },
               [.reply .enterDescription], .GET_DESCRIPTION)

/-- `save_transaction(update, context)` (src/main.py:149-187): read
`current_transaction` (`KeyError` when absent), stamp description and
timestamp, append to `transactions_today` (creating the list when
missing), pop and best-effort delete the old menu message, drop
`current_transaction`, then re-enter `start` with a `MockUpdate`
carrying neither callback nor message so that a brand-new menu is
sent.  A pending dict without the `'amount'` key would be appended
as-is and make the `sum` inside that `start` call raise
`KeyError('amount')`; since `GET_DESCRIPTION` is only ever entered
after `ask_for_description` stores the amount, this dead path is
modelled as the eventual error directly. -/
def save_transaction (env : Env) (text : String) (d : UserData) :
    Except Err (UserData × List Effect × ConvState) :=
  match d.current_transaction with
  | none => .error (.keyError "current_transaction")
  | some p =>
      match p.amount with
      | none => .error (.keyError "amount")
      | some a =>
          let t : Tx :=
            { type := p.type, amount := a
              description := some text, date := some env.now.iso }
          let d1 := { d with
            transactions_today := some (d.transactions_today.getD [] ++ [t]) }
          let delEffs : List Effect :=
            match d1.message_id with
            | some mid => [.deleteMsg mid]
            | none => []
          let d2 := { d1 with message_id := none, current_transaction := none }
          match start env { callback := none, hasMessage := false } d2 with
          | .error e => .error e
          | .ok (d3, effs, st) => .ok (d3, delEffs ++ effs, st)

/-- The inbound events the `ConversationHandler` (src/main.py:209-223)
routes: the `/start` entry command, a button press, a text message. -/
inductive Event where
  | entry
  | button (k : TxType)
  | text (s : String)
deriving DecidableEq, Repr

/-- One step of the per-user conversation machine, following the
handler table of src/main.py:209-223: `/start` reaches `start` from
every state (entry point and fallback); button presses are only
handled in `START_ROUTES`; text is handled in `GET_AMOUNT` and
`GET_DESCRIPTION`; everything else has no matching handler and is
ignored. -/
def stepConv (env : Env) (st : ConvState) (d : UserData) (e : Event) :
    Except Err (UserData × List Effect × ConvState) :=
  match e with
  | .entry => start env { callback := none, hasMessage := true } d
  | .button k =>
      match st with
      | .START_ROUTES => .ok (ask_for_amount k d)
      | _ => .ok (d, [], st)
  | .text s =>
      match st with
      | .GET_AMOUNT => ask_for_description s d
      | .GET_DESCRIPTION => save_transaction env s d
      | .START_ROUTES => .ok (d, [], st)

/-- One line of the transaction list in the rendered menu
(src/main.py:80-82): the income/expense marker, the amount, and the
description with its fallback label. -/
structure RenderedTx where
  marker : String
  amount : ℚ
  label : String
deriving DecidableEq, Repr

/-- `op_type = "✅" if t['type'] == 'income' else '🔻'` together with
`t.get('description', 'без описания')` (src/main.py:81-82). -/
def renderTx (t : Tx) : RenderedTx :=
  { marker := if t.type == TxType.income then "✅" else "🔻"
    amount := t.amount
    label := t.description.getD "без описания" }

/-- The Python slice `ts[-5:]`. -/
def lastFive (ts : List Tx) : List Tx :=
  ts.drop (ts.length - 5)

/-- The transaction section of the rendered menu: one line per element
of `stats['transactions'][-5:]`, in list order (src/main.py:80-82). -/
def render_transactions (ts : List Tx) : List RenderedTx :=
  (lastFive ts).map renderTx

/-- Number of new-message sends in an effect trace. -/
def countSends (effs : List Effect) : Nat :=
  effs.countP (fun e => match e with | .sendMenu _ _ => true | _ => false)

/-- Number of in-place menu edits in an effect trace. -/
def countEdits (effs : List Effect) : Nat :=
  effs.countP (fun e => match e with | .editMenu _ _ => true | _ => false)

/-- Extract the updated user dict from a successful handler result. -/
def okData : Except Err (UserData × List Effect × ConvState) → Option UserData
  | .ok (d, _, _) => some d
  | .error _ => none

/-- A fixed wall clock used by concrete instances. -/
def sampleNow : Now :=
  { dateKey := "2026-10-12"
    dateDisplay := "12 October 2026"
    iso := "2026-10-12T09:00:00+05:00" }

/-- A fixed per-event environment with working transport calls. -/
def sampleEnv : Env :=
  { now := sampleNow, freshId := 7, editOk := true, deleteOk := true }

/-- A ledger already rolled over today, with one recorded income. -/
def dIdem : UserData :=
  { last_update := some "2026-10-12"
    balance_start_day := some 10
    balance_end_day := some 25
    transactions_today :=
      some [{ type := .income, amount := 15
              description := some "pay", date := some "T" }]
    message_id := some 3
    current_transaction := none }

/-- A ledger last touched yesterday with closing balance 50. -/
def dStale : UserData :=
  { last_update := some "2026-10-11"
    balance_start_day := some 20
    balance_end_day := some 50
    transactions_today :=
      some [{ type := .expense, amount := 5, description := none, date := none }]
    message_id := some 3
    current_transaction := none }

/-- A fresh same-day user about to commit a pending income of 150. -/
def dCommit : UserData :=
  { last_update := some "2026-10-12"
    balance_start_day := some 0
    balance_end_day := some 0
    transactions_today := some []
    message_id := some 3
    current_transaction := some { type := .income, amount := some 150 } }

/-- A session waiting for an amount. -/
def dAwaitAmount : UserData :=
  { last_update := some "2026-10-12"
    balance_start_day := some 0
    balance_end_day := some 0
    transactions_today := some []
    message_id := some 3
    current_transaction := some { type := .income, amount := none } }

/-- A session with a live menu message but no pending transaction. -/
def dNoPending : UserData :=
  { last_update := some "2026-10-12"
    balance_start_day := some 0
    balance_end_day := some 0
    transactions_today := some []
    message_id := some 3
    current_transaction := none }

/-- A session that just pressed the expense button. -/
def dNegPending : UserData :=
  { last_update := some "2026-10-12"
    balance_start_day := some 0
    balance_end_day := some 0
    transactions_today := some []
    message_id := some 5
    current_transaction := some { type := .expense, amount := none } }

/-- `dNegPending` after the amount text "-5" was accepted. -/
def dNegMid : UserData :=
  { dNegPending with
    current_transaction := some { type := .expense, amount := some (-5) } }

/-- A session with no live menu message recorded. -/
def dNoLive : UserData :=
  { last_update := some "2026-10-12"
    balance_start_day := some 0
    balance_end_day := some 0
    transactions_today := some []
    message_id := none
    current_transaction := none }

/-- A dialogue that started yesterday and commits after midnight. -/
def dMidnight : UserData :=
  { last_update := some "2026-10-11"
    balance_start_day := some 20
    balance_end_day := some 50
    transactions_today :=
      some [{ type := .income, amount := 5, description := some "old", date := none }]
    message_id := some 3
    current_transaction := some { type := .income, amount := some 100 } }

/-- A transaction dict without a `'description'` key. -/
def txNoDesc : Tx :=
  { type := .income, amount := 3, description := none, date := none }

/-- Six transactions, to exercise the last-five cut of the renderer. -/
def tsSample : List Tx :=
  [{ type := .income, amount := 1, description := some "a", date := none },
   { type := .expense, amount := 2, description := some "b", date := none },
   { type := .income, amount := 3, description := none, date := none },
   { type := .income, amount := 4, description := some "d", date := none },
   { type := .expense, amount := 5, description := some "e", date := none },
   { type := .income, amount := 6, description := some "f", date := none }]

/-- `get_user_stats` never touches the `'message_id'` key. -/
theorem get_user_stats_message_id (now : Now) (d : UserData) :
    ((get_user_stats now d).1).message_id = d.message_id := by
  unfold get_user_stats rollover
  split <;> rfl

/-- With a live message recorded, no callback and a working transport,
`start` edits that message in place and records nothing new. -/
theorem start_edit_lemma (env : Env) (d : UserData) (mid : Nat)
    (he : env.editOk = true) (hm : d.message_id = some mid) :
    start env { callback := none, hasMessage := true } d
      = .ok ((get_user_stats env.now d).1,
             [.editMenu mid (get_user_stats env.now d).2], .START_ROUTES) := by
  have h1 : ((get_user_stats env.now d).1).message_id = some mid := by
    rw [get_user_stats_message_id, hm]
  unfold start
  rw [show get_user_stats env.now d
        = ((get_user_stats env.now d).1, (get_user_stats env.now d).2) from rfl]
  simp [h1, he]

/-- With no live message and no callback, `start` sends a brand-new
menu message and records the id the transport assigns. -/
theorem start_send_lemma (env : Env) (hasMsg : Bool) (d : UserData)
    (hm : d.message_id = none) :
    start env { callback := none, hasMessage := hasMsg } d
      = .ok ({ (get_user_stats env.now d).1 with message_id := some env.freshId },
             [.sendMenu (get_user_stats env.now d).2 env.freshId], .START_ROUTES) := by
  have h1 : ((get_user_stats env.now d).1).message_id = none := by
    rw [get_user_stats_message_id, hm]
  unfold start
  rw [show get_user_stats env.now d
        = ((get_user_stats env.now d).1, (get_user_stats env.now d).2) from rfl]
  simp [h1]

/-- C1: after every call to `get_user_stats`, the returned closing
balance equals the opening balance plus the income total minus the
expense total of the returned transaction list, those totals are the
sums over that very list, and the persisted `balance_end_day` is
exactly the recomputed value -- the closing balance is recomputed on
every read, for every ledger state. -/
theorem conservation_balance_end (now : Now) (d : UserData) :
    ((get_user_stats now d).2).balance_end
      = ((get_user_stats now d).2).balance_start
        + ((get_user_stats now d).2).total_income
        - ((get_user_stats now d).2).total_expense
    ∧ ((get_user_stats now d).2).total_income
        = total_income ((get_user_stats now d).2).transactions
    ∧ ((get_user_stats now d).2).total_expense
        = total_expense ((get_user_stats now d).2).transactions
    ∧ ((get_user_stats now d).1).balance_end_day
        = some ((get_user_stats now d).2).balance_end := by
  unfold get_user_stats
  split <;> simp

/-- C2: calling `get_user_stats` twice with the same calendar day (the
two clock readings agree on both date projections) returns the first
call's snapshot unchanged and leaves the whole persisted dict exactly
as the first call left it -- in particular `balance_start_day` is not
changed again and the carry-forward step does not re-fire. -/
theorem stats_idempotent (n1 n2 : Now) (d : UserData)
    (hk : n1.dateKey = n2.dateKey) (hd : n1.dateDisplay = n2.dateDisplay) :
    get_user_stats n2 (get_user_stats n1 d).1 = get_user_stats n1 d := by
  unfold get_user_stats rollover
  split <;> simp_all

/-- Witness for C2 at a concrete ledger and clock. -/
theorem stats_idempotent_witness :
    sampleNow.dateKey = sampleNow.dateKey
    ∧ sampleNow.dateDisplay = sampleNow.dateDisplay
    ∧ get_user_stats sampleNow (get_user_stats sampleNow dIdem).1
        = get_user_stats sampleNow dIdem :=
  ⟨rfl, rfl, stats_idempotent sampleNow sampleNow dIdem rfl rfl⟩

/-- C3: whenever `last_update` is absent or differs from today's key --
by any number of days -- one call to `get_user_stats` seeds the
opening balance from the previously persisted closing balance (0 when
never set), empties the transaction list, stamps `last_update` with
today, and reports exactly that carried-over balance as both opening
and closing balance. -/
theorem rollover_correct (now : Now) (d : UserData)
    (h : d.last_update ≠ some now.dateKey) :
    ((get_user_stats now d).1).balance_start_day = some (d.balance_end_day.getD 0)
    ∧ ((get_user_stats now d).1).transactions_today = some []
    ∧ ((get_user_stats now d).1).last_update = some now.dateKey
    ∧ ((get_user_stats now d).2).balance_start = d.balance_end_day.getD 0
    ∧ ((get_user_stats now d).2).transactions = []
    ∧ ((get_user_stats now d).2).balance_end = d.balance_end_day.getD 0 := by
  unfold get_user_stats rollover
  rw [if_neg h]
  simp [total_income, total_expense]

/-- Witness for C3: a ledger stamped yesterday with closing balance 50
yields opening balance 50 and an empty list on today's first access. -/
theorem rollover_correct_witness :
    dStale.last_update ≠ some sampleNow.dateKey
    ∧ dStale.balance_end_day.getD 0 = 50
    ∧ (((get_user_stats sampleNow dStale).1).balance_start_day
          = some (dStale.balance_end_day.getD 0)
       ∧ ((get_user_stats sampleNow dStale).1).transactions_today = some []
       ∧ ((get_user_stats sampleNow dStale).1).last_update = some sampleNow.dateKey
       ∧ ((get_user_stats sampleNow dStale).2).balance_start
          = dStale.balance_end_day.getD 0
       ∧ ((get_user_stats sampleNow dStale).2).transactions = []
       ∧ ((get_user_stats sampleNow dStale).2).balance_end
          = dStale.balance_end_day.getD 0) :=
  ⟨by decide, rfl, rollover_correct sampleNow dStale (by decide)⟩

/-- C5: in `GET_AMOUNT`, any text that does not parse as a float is
answered with the retry prompt only: the machine stays in
`GET_AMOUNT` and the user dict -- pending transaction and ledger
included -- is returned untouched. -/
theorem parse_failure_loop (env : Env) (d : UserData) (text : String)
    (h : parseFloat text = none) :
    stepConv env .GET_AMOUNT d (.text text)
      = .ok (d, [.reply .notANumber], .GET_AMOUNT) := by
  simp [stepConv, ask_for_description, h]

/-- Witness for C5 at the text "abc". -/
theorem parse_failure_loop_witness :
    parseFloat "abc" = none
    ∧ stepConv sampleEnv .GET_AMOUNT dAwaitAmount (.text "abc")
        = .ok (dAwaitAmount, [.reply .notANumber], .GET_AMOUNT) :=
  ⟨rfl, parse_failure_loop sampleEnv dAwaitAmount "abc" rfl⟩

/-- C4: in `GET_DESCRIPTION` with a pending transaction present and the
ledger already stamped today, a text message commits: the transaction
-- description set to the text, timestamp set to now -- is appended to
`transactions_today`, the pending entry is discarded, the old live
message (when recorded) gets one best-effort delete call whose
success or failure does not change the outcome, and the machine
returns to `START_ROUTES` by sending one brand-new menu message (zero
edits) whose id is recorded. -/
theorem commit_transition (env : Env) (d : UserData) (text : String)
    (k : TxType) (a : ℚ)
    (hp : d.current_transaction = some { type := k, amount := some a })
    (hday : d.last_update = some env.now.dateKey) :
    ∃ d' effs stats,
      stepConv env .GET_DESCRIPTION d (.text text) = .ok (d', effs, .START_ROUTES)
      ∧ d'.transactions_today
          = some (d.transactions_today.getD []
              ++ [{ type := k, amount := a, description := some text,
                    date := some env.now.iso }])
      ∧ d'.current_transaction = none
      ∧ d'.message_id = some env.freshId
      ∧ effs = (match d.message_id with
                | some mid => [Effect.deleteMsg mid]
                | none => []) ++ [Effect.sendMenu stats env.freshId]
      ∧ countEdits effs = 0
      ∧ countSends effs = 1
      ∧ (∀ b : Bool,
          stepConv { env with deleteOk := b } .GET_DESCRIPTION d (.text text)
            = stepConv env .GET_DESCRIPTION d (.text text)) := by
  obtain ⟨lu, bs, be, ts, mid, ct⟩ := d
  simp only at hp hday
  subst hp hday
  cases mid <;>
    simp [stepConv, save_transaction, start, get_user_stats, countEdits,
          countSends, List.countP, List.countP.go] <;>
    exact ⟨_, _, ⟨rfl, rfl⟩, rfl, rfl, rfl, ⟨_, rfl⟩, rfl, rfl⟩

/-- Witness for C4: a fresh user committing the income 150 described as
"salary". -/
theorem commit_transition_witness :
    dCommit.current_transaction
        = some { type := TxType.income, amount := some 150 }
    ∧ dCommit.last_update = some sampleEnv.now.dateKey
    ∧ (∃ d' effs stats,
        stepConv sampleEnv .GET_DESCRIPTION dCommit (.text "salary")
          = .ok (d', effs, .START_ROUTES)
        ∧ d'.transactions_today
            = some (dCommit.transactions_today.getD []
                ++ [{ type := TxType.income, amount := 150,
                      description := some "salary",
                      date := some sampleEnv.now.iso }])
        ∧ d'.current_transaction = none
        ∧ d'.message_id = some sampleEnv.freshId
        ∧ effs = (match dCommit.message_id with
                  | some mid => [Effect.deleteMsg mid]
                  | none => []) ++ [Effect.sendMenu stats sampleEnv.freshId]
        ∧ countEdits effs = 0
        ∧ countSends effs = 1
        ∧ (∀ b : Bool,
            stepConv { sampleEnv with deleteOk := b } .GET_DESCRIPTION dCommit
                (.text "salary")
              = stepConv sampleEnv .GET_DESCRIPTION dCommit (.text "salary"))) :=
  ⟨rfl, rfl,
   commit_transition sampleEnv dCommit "salary" TxType.income 150 rfl rfl⟩

/-- C6 counterexample: with no pending transaction in the session, the
`GET_DESCRIPTION` text handler does not reset the dialogue to the main
menu -- it propagates a `KeyError` for `'current_transaction'`
(src/main.py:152 is an unguarded dict lookup). -/
theorem missing_pending_reset_counterexample :
    stepConv sampleEnv .GET_DESCRIPTION dNoPending (.text "x")
      = .error (.keyError "current_transaction") := rfl

/-- C6 amended: if `GET_DESCRIPTION` is reached with no pending
transaction, the text handler raises `KeyError('current_transaction')`
out of the dialogue; no session reset and no re-render happen. -/
theorem missing_pending_raises (env : Env) (d : UserData) (text : String)
    (h : d.current_transaction = none) :
    stepConv env .GET_DESCRIPTION d (.text text)
      = .error (.keyError "current_transaction") := by
  simp [stepConv, save_transaction, h]

/-- Witness for the amended C6. -/
theorem missing_pending_raises_witness :
    dNoPending.current_transaction = none
    ∧ stepConv sampleEnv .GET_DESCRIPTION dNoPending (.text "salary")
        = .error (.keyError "current_transaction") :=
  ⟨rfl, missing_pending_raises sampleEnv dNoPending "salary" rfl⟩

/-- C7 counterexample: the amount step accepts "-5" (Python
`float("-5")` is -5.0) with no sign validation, and the subsequent
commit stores a transaction with the negative amount -5 in
`transactions_today`. -/
theorem nonpositive_amount_counterexample :
    parseFloat "-5" = some (-5)
    ∧ stepConv sampleEnv .GET_AMOUNT dNegPending (.text "-5")
        = .ok (dNegMid, [.reply .enterDescription], .GET_DESCRIPTION)
    ∧ (okData (stepConv sampleEnv .GET_DESCRIPTION dNegMid (.text "lunch"))).map
        UserData.transactions_today
        = some (some [{ type := TxType.expense, amount := -5,
                        description := some "lunch", date := some sampleNow.iso }])
    ∧ ¬ ((-5 : ℚ) > 0) := by
  refine ⟨by decide, by rfl, ?_, by decide⟩
  simp [stepConv, save_transaction, start, get_user_stats, okData,
        dNegMid, dNegPending, sampleEnv, sampleNow]

/-- C7 amended: the amount-input step performs no positivity check --
any text that parses as a float, zero or negative included, is stored
into the pending transaction and the dialogue advances to the
description step. -/
theorem amount_sign_unchecked (env : Env) (d : UserData) (text : String)
    (a : ℚ) (p : PendingTx)
    (hparse : parseFloat text = some a)
    (hp : d.current_transaction = some p) :
    stepConv env .GET_AMOUNT d (.text text)
      = .ok ({ d with current_transaction := some { p with amount := some a } },
             [.reply .enterDescription], .GET_DESCRIPTION) := by
  simp [stepConv, ask_for_description, hparse, hp]

/-- Witness for the amended C7 at the negative amount -5. -/
theorem amount_sign_unchecked_witness :
    parseFloat "-5" = some (-5)
    ∧ dNegPending.current_transaction
        = some { type := TxType.expense, amount := none }
    ∧ stepConv sampleEnv .GET_AMOUNT dNegPending (.text "-5")
        = .ok ({ dNegPending with
                  current_transaction :=
                    some { type := TxType.expense, amount := some (-5) } },
               [.reply .enterDescription], .GET_DESCRIPTION) :=
  ⟨by decide, rfl,
   amount_sign_unchecked sampleEnv dNegPending "-5" (-5)
     { type := TxType.expense, amount := none } (by decide) rfl⟩

/-- C8: for every transaction list, the rendered menu section is the
image of the list's suffix of length `min 5 length` (so at most the
last five, kept in original chronological order), each line's marker
is "✅" exactly for income and "🔻" exactly for expense, and the label
falls back to the default "без описания" exactly when the description
is absent and otherwise shows the stored description. -/
theorem render_last_five_spec (ts : List Tx) :
    (render_transactions ts).length = min 5 ts.length
    ∧ (∃ pre, ts = pre ++ lastFive ts)
    ∧ render_transactions ts = (lastFive ts).map renderTx
    ∧ (∀ t : Tx, ((renderTx t).marker = "✅" ↔ t.type = TxType.income))
    ∧ (∀ t : Tx, ((renderTx t).marker = "🔻" ↔ t.type = TxType.expense))
    ∧ (∀ t : Tx, t.description = none → (renderTx t).label = "без описания")
    ∧ (∀ (t : Tx) (s : String), t.description = some s → (renderTx t).label = s) := by
  refine ⟨?_, ⟨ts.take (ts.length - 5), (List.take_append_drop _ ts).symm⟩,
          rfl, ?_, ?_, ?_, ?_⟩
  · simp only [render_transactions, lastFive, List.length_map, List.length_drop]
    omega
  · intro t
    cases ht : t.type <;> simp [renderTx, ht]
  · intro t
    cases ht : t.type <;> simp [renderTx, ht]
  · intro t h
    simp [renderTx, h]
  · intro t s h
    simp [renderTx, h]

/-- Witness for C8: six transactions render as five lines, and an
absent description gets the default label. -/
theorem render_last_five_spec_witness :
    (render_transactions tsSample).length = min 5 tsSample.length
    ∧ (renderTx txNoDesc).label = "без описания" :=
  ⟨(render_last_five_spec tsSample).1,
   (render_last_five_spec tsSample).2.2.2.2.2.1 txNoDesc rfl⟩

/-- C9: in `START_ROUTES`, an entry command with a live message id
recorded and a working transport produces exactly one in-place edit of
that message and zero sends, keeps the id, and a second consecutive
entry command behaves the same; only with no live message id recorded
does the entry command send a new message and record its id. -/
theorem edit_in_place_policy :
    (∀ (env env' : Env) (d : UserData) (mid : Nat),
       env.editOk = true → env'.editOk = true → d.message_id = some mid →
       ∃ d1 s1 d2 s2,
         stepConv env .START_ROUTES d .entry
           = .ok (d1, [Effect.editMenu mid s1], .START_ROUTES)
         ∧ countEdits [Effect.editMenu mid s1] = 1
         ∧ countSends [Effect.editMenu mid s1] = 0
         ∧ d1.message_id = some mid
         ∧ stepConv env' .START_ROUTES d1 .entry
           = .ok (d2, [Effect.editMenu mid s2], .START_ROUTES)
         ∧ countEdits [Effect.editMenu mid s2] = 1
         ∧ countSends [Effect.editMenu mid s2] = 0
         ∧ d2.message_id = some mid)
    ∧ (∀ (env : Env) (d : UserData), d.message_id = none →
       ∃ d1 s1,
         stepConv env .START_ROUTES d .entry
           = .ok (d1, [Effect.sendMenu s1 env.freshId], .START_ROUTES)
         ∧ countSends [Effect.sendMenu s1 env.freshId] = 1
         ∧ countEdits [Effect.sendMenu s1 env.freshId] = 0
         ∧ d1.message_id = some env.freshId) := by
  constructor
  · intro env env' d mid he he' hm
    have hd1 : ((get_user_stats env.now d).1).message_id = some mid := by
      rw [get_user_stats_message_id, hm]
    refine ⟨_, _, _, _, start_edit_lemma env d mid he hm, rfl, rfl, hd1,
            start_edit_lemma env' _ mid he' hd1, rfl, rfl, ?_⟩
    rw [get_user_stats_message_id]
    exact hd1
  · intro env d hm
    exact ⟨_, _, start_send_lemma env true d hm, rfl, rfl, rfl⟩

/-- Witness for C9: two entry commands against a recorded live message,
and one entry command without one. -/
theorem edit_in_place_policy_witness :
    sampleEnv.editOk = true
    ∧ dNoPending.message_id = some 3
    ∧ dNoLive.message_id = none
    ∧ (∃ d1 s1 d2 s2,
         stepConv sampleEnv .START_ROUTES dNoPending .entry
           = .ok (d1, [Effect.editMenu 3 s1], .START_ROUTES)
         ∧ countEdits [Effect.editMenu 3 s1] = 1
         ∧ countSends [Effect.editMenu 3 s1] = 0
         ∧ d1.message_id = some 3
         ∧ stepConv sampleEnv .START_ROUTES d1 .entry
           = .ok (d2, [Effect.editMenu 3 s2], .START_ROUTES)
         ∧ countEdits [Effect.editMenu 3 s2] = 1
         ∧ countSends [Effect.editMenu 3 s2] = 0
         ∧ d2.message_id = some 3)
    ∧ (∃ d1 s1,
         stepConv sampleEnv .START_ROUTES dNoLive .entry
           = .ok (d1, [Effect.sendMenu s1 sampleEnv.freshId], .START_ROUTES)
         ∧ countSends [Effect.sendMenu s1 sampleEnv.freshId] = 1
         ∧ countEdits [Effect.sendMenu s1 sampleEnv.freshId] = 0
         ∧ d1.message_id = some sampleEnv.freshId) :=
  ⟨rfl, rfl, rfl,
   edit_in_place_policy.1 sampleEnv sampleEnv dNoPending 3 rfl rfl rfl,
   edit_in_place_policy.2 sampleEnv dNoLive rfl⟩

/-- C10: committing a transaction while the session's `last_update`
differs from today's date appends it and immediately loses it -- the
re-render after the commit runs the rollover, so the final dict has an
empty `transactions_today` and both balances equal to the closing
balance persisted before the commit: the just-committed transaction
never contributes to any total. -/
theorem midnight_commit_lost (env : Env) (d : UserData) (text : String)
    (k : TxType) (a : ℚ)
    (hp : d.current_transaction = some { type := k, amount := some a })
    (hday : d.last_update ≠ some env.now.dateKey) :
    ∃ d' effs, stepConv env .GET_DESCRIPTION d (.text text)
        = .ok (d', effs, .START_ROUTES)
      ∧ d'.transactions_today = some []
      ∧ d'.balance_start_day = some (d.balance_end_day.getD 0)
      ∧ d'.balance_end_day = some (d.balance_end_day.getD 0)
      ∧ d'.last_update = some env.now.dateKey
      ∧ d'.current_transaction = none := by
  obtain ⟨lu, bs0, be0, ts0, mid0, ct⟩ := d
  simp only at hp hday
  subst hp
  cases mid0 <;>
    simp [stepConv, save_transaction, start, get_user_stats, rollover,
          hday, total_income, total_expense]

/-- Witness for C10: a pending income of 100 committed on a ledger last
stamped yesterday disappears; both balances stay at yesterday's
closing balance. -/
theorem midnight_commit_lost_witness :
    dMidnight.current_transaction
        = some { type := TxType.income, amount := some 100 }
    ∧ dMidnight.last_update ≠ some sampleEnv.now.dateKey
    ∧ (∃ d' effs, stepConv sampleEnv .GET_DESCRIPTION dMidnight (.text "taxi")
          = .ok (d', effs, .START_ROUTES)
        ∧ d'.transactions_today = some []
        ∧ d'.balance_start_day = some (dMidnight.balance_end_day.getD 0)
        ∧ d'.balance_end_day = some (dMidnight.balance_end_day.getD 0)
        ∧ d'.last_update = some sampleEnv.now.dateKey
        ∧ d'.current_transaction = none) :=
  ⟨rfl, by decide,
   midnight_commit_lost sampleEnv dMidnight "taxi" TxType.income 100 rfl
     (by decide)⟩
